import Mathlib

/-!
Verification development for the AutoGLM-GUI screen-mirroring subsystem.

The consumer-side PlaybackClient is the ScrcpyPlayer React component. The
repository contains two variants of it:

* the simple variant, src/frontend/src/components/ScrcpyPlayer.tsx, whose
  jMuxer onError handler only logs;
* the debounced variant (an unnamed source file with the same component
  name), whose connect function first discards the old WebSocket and jMuxer
  instance and whose jMuxer onError handler performs a debounced resync.

Both are embedded below as explicit event-driven state machines: every
browser event (WebSocket open, message, error, close; jMuxer onError; the
two timers) is an event of an inductive type, and each handler body is
translated into a step function on an explicit state record.  Handlers run
atomically, matching the single-threaded JavaScript event loop.  Effects on
external objects are recorded observably in the state: calls to onFallback
are counted in fallbackFires, payloads passed to jMuxer.feed are collected
in fed, created and destroyed decoder instances are tracked by fresh
numeric ids.  Console logging and the frame-rate statistics block, which
mutate nothing observable, are elided.  JSON.parse and the decoder are
browser or library builtins, so a text message event carries the parse
outcome (none for a parse failure, and otherwise the optional error field)
rather than raw JSON text, and server strings are modelled as byte lists.
The one handler that is not atomic in the source is the async connect
function of the debounced variant, which awaits a 300 ms cleanup pause
between discarding the old instances and creating fresh ones; the Paused
namespace models that suspension explicitly.

The server-side ParameterCache and Broadcaster are not among the provided
source files (only a documentation file mentions them), so they are
modelled from the spec in the Broadcast namespace below.
-/

namespace AutoGLM

/-- Connection status of the ScrcpyPlayer component: the useState union
type in both variants. -/
inductive Status
  | connecting
  | connected
  | error
  | disconnected
deriving DecidableEq, Repr

/-- The error text shown in the status overlay.  Literal strings of the
source are modelled as dedicated constructors; a server-provided error
string is carried as its byte list. -/
inductive ErrMsg
  | unknownError
  | serverText (m : List Nat)
  | connectionError
  | streamTimeout
deriving DecidableEq, Repr

/-- Public props of the component: onFallback is an optional callback and
fallbackTimeout an optional number defaulting to 5000. -/
structure Props where
  onFallbackProvided : Bool
  fallbackTimeout : Option Nat
deriving DecidableEq, Repr

/-- The fallback timeout actually used: the prop value, or the declared
default 5000 when the prop is absent. -/
def Props.effFallbackTimeout (p : Props) : Nat :=
  p.fallbackTimeout.getD 5000

/-- The JavaScript expression picking the displayed message out of a parsed
text frame: the error field if it is a non-empty string, the fixed unknown
error text otherwise (the source uses the falsy-or operator, under which an
empty string also falls back). -/
def errorText (field : Option (List Nat)) : ErrMsg :=
  match field with
  | some m => if m = [] then ErrMsg.unknownError else ErrMsg.serverText m
  | none => ErrMsg.unknownError

/-!
## The simple variant: src/frontend/src/components/ScrcpyPlayer.tsx
-/

namespace Simple

/-- Mutable state of the simple variant: the status and errorMessage React
states, the hasReceivedDataRef latch, whether the fallback timer is armed,
how often onFallback has been called, whether the reconnect timer is armed
and with which delay, whether a jMuxer instance is bound, and the payloads
fed to it. -/
structure State where
  status : Status
  errorMessage : Option ErrMsg
  hasReceivedData : Bool
  fallbackTimerArmed : Bool
  fallbackFires : Nat
  reconnectArmed : Option Nat
  jmuxerPresent : Bool
  fed : List (List Nat)
deriving DecidableEq, Repr

/-- Events the simple variant reacts to.  A text message carries the
JSON.parse outcome: none when parsing throws, otherwise the optional error
field of the parsed value. -/
inductive Event
  | openEv
  | textMsg (parsed : Option (Option (List Nat)))
  | binMsg (payload : List Nat)
  | wsErrorEv
  | closeEv
  | timerFire
  | reconnectFire
deriving DecidableEq, Repr

/-- The connect function of the simple variant: set status connecting,
clear the error message, create a jMuxer instance and a WebSocket.  Note
that this variant does not destroy the previous jMuxer instance nor close
the previous WebSocket before creating fresh ones. -/
def connect (s : State) : State :=
  { s with status := Status.connecting, errorMessage := none, jmuxerPresent := true }

/-- One atomic handler invocation of the simple variant, translated
clause by clause from the source handlers. -/
def step (p : Props) (s : State) : Event → State
  | Event.openEv =>
      { s with status := Status.connected, fallbackTimerArmed := true }
  | Event.textMsg parsed =>
      match parsed with
      | none => s
      | some field =>
          let s1 : State :=
            { s with errorMessage := some (errorText field), status := Status.error }
          if p.onFallbackProvided = true ∧ s1.hasReceivedData = false then
            { s1 with fallbackFires := s1.fallbackFires + 1 }
          else s1
  | Event.binMsg payload =>
      let s1 : State :=
        if s.hasReceivedData then s
        else { s with hasReceivedData := true, fallbackTimerArmed := false }
      if s1.jmuxerPresent = true ∧ 0 < payload.length then
        { s1 with fed := s1.fed ++ [payload] }
      else s1
  | Event.wsErrorEv =>
      { s with errorMessage := some ErrMsg.connectionError, status := Status.error }
  | Event.closeEv =>
      { s with status := Status.disconnected, reconnectArmed := some 3000 }
  | Event.timerFire =>
      if s.fallbackTimerArmed then
        let s1 : State := { s with fallbackTimerArmed := false }
        if s1.hasReceivedData = false then
          let s2 : State :=
            { s1 with status := Status.error, errorMessage := some ErrMsg.streamTimeout }
          if p.onFallbackProvided then { s2 with fallbackFires := s2.fallbackFires + 1 }
          else s2
        else s1
      else s
  | Event.reconnectFire =>
      if s.reconnectArmed.isSome then connect { s with reconnectArmed := none } else s

/-- Run a sequence of events. -/
def run (p : Props) (s : State) (es : List Event) : State :=
  es.foldl (step p) s

/-- State at component creation, before the effect hook runs. -/
def initState : State :=
  ⟨Status.connecting, none, false, false, 0, none, false, []⟩

/-- State after mounting: the effect hook calls connect once. -/
def mount : State := connect initState

/-- Every timer delay the simple variant ever passes to setTimeout: the
fallback timer delay (the prop with its default) and the 3000 ms
auto-reconnect delay. -/
def timeoutList (p : Props) : List Nat :=
  [p.effFallbackTimeout, 3000]

end Simple

/-!
## The debounced variant (unnamed source file, same component name)

This variant keeps two extra timestamp refs, lastErrorTimeRef and
lastConnectTimeRef, both initially 0, and its jMuxer onError handler
performs a debounced resync on buffer errors by scheduling the connect
function after 100 ms.  Its connect function first removes the old
WebSocket handlers (onclose, onerror, onmessage — not onopen), closes the
old WebSocket, destroys the old jMuxer instance, and after a 300 ms
cleanup pause creates fresh ones.  The pause is a suspension of the
single-threaded connect call; in this namespace it is modelled as part of
one connect step, which is adequate for properties of a single handler
invocation; the Paused namespace below refines connect by making the
suspension explicit, which is what the overlap of two connect calls
needs.  Instances carry fresh numeric ids drawn from a counter; openWs
lists WebSockets created and not yet closed, liveJmuxers the jMuxer
instances created and not yet destroyed.  Events that reach the component
through a specific WebSocket handler carry that WebSocket id, and have an
effect only when that WebSocket is the current one, because connect nulls
the handlers of the WebSocket it replaces.
-/

namespace Debounced

/-- Mutable state of the debounced variant. -/
structure State where
  status : Status
  errorMessage : Option ErrMsg
  hasReceivedData : Bool
  fallbackTimerArmed : Bool
  fallbackFires : Nat
  reconnectArmed : Option Nat
  resyncArmed : Option Nat
  resyncCount : Nat
  lastErrorTime : Nat
  lastConnectTime : Nat
  ws : Option Nat
  openWs : List Nat
  jmuxer : Option Nat
  liveJmuxers : List Nat
  destroyedJmuxers : List Nat
  nextId : Nat
  fed : List (List Nat)
deriving DecidableEq, Repr

/-- Events of the debounced variant.  Every event carries the current
Date.now value in milliseconds; WebSocket handler events also carry the id
of the WebSocket they were attached to. -/
inductive Event
  | openEv (now : Nat)
  | textMsg (now : Nat) (id : Nat) (parsed : Option (Option (List Nat)))
  | binMsg (now : Nat) (id : Nat) (payload : List Nat)
  | bufferError (now : Nat)
  | otherDecodeError (now : Nat)
  | wsErrorEv (now : Nat) (id : Nat)
  | closeEv (now : Nat) (id : Nat)
  | timerFire (now : Nat)
  | reconnectFire (now : Nat)
  | resyncFire (now : Nat)
deriving DecidableEq, Repr

/-- The connect function of the debounced variant: record the connect
time, set status connecting, clear the error message; close the existing
WebSocket after removing its handlers; destroy the existing jMuxer
instance; then create a fresh jMuxer instance and a fresh WebSocket. -/
def connect (now : Nat) (s0 : State) : State :=
  let s1 : State :=
    { s0 with lastConnectTime := now, status := Status.connecting, errorMessage := none }
  let s2 : State :=
    match s1.ws with
    | some w => { s1 with ws := none, openWs := s1.openWs.erase w }
    | none => s1
  let s3 : State :=
    match s2.jmuxer with
    | some j =>
        { s2 with jmuxer := none, liveJmuxers := s2.liveJmuxers.erase j,
                  destroyedJmuxers := s2.destroyedJmuxers ++ [j] }
    | none => s2
  { s3 with jmuxer := some s3.nextId, liveJmuxers := s3.liveJmuxers ++ [s3.nextId],
            ws := some (s3.nextId + 1), openWs := s3.openWs ++ [s3.nextId + 1],
            nextId := s3.nextId + 2 }

/-- The debounce decision of the jMuxer onError handler for a buffer
error: a quick retry window applies when the error comes within 1000 ms of
the last connect, otherwise 2000 ms must have passed since the last
error-triggered resync.  Date.now differences are truncated subtraction on
Nat, which takes the same branches as the JavaScript comparisons. -/
def shouldReconnect (s : State) (now : Nat) : Bool :=
  if now - s.lastConnectTime < 1000 then decide (500 < now - s.lastErrorTime)
  else decide (2000 < now - s.lastErrorTime)

/-- One atomic handler invocation of the debounced variant. -/
def step (p : Props) (s : State) : Event → State
  | Event.openEv _now =>
      { s with status := Status.connected, fallbackTimerArmed := true }
  | Event.textMsg _now id parsed =>
      if s.ws = some id then
        match parsed with
        | none => s
        | some field =>
            let s1 : State :=
              { s with errorMessage := some (errorText field), status := Status.error }
            if p.onFallbackProvided = true ∧ s1.hasReceivedData = false then
              { s1 with fallbackFires := s1.fallbackFires + 1 }
            else s1
      else s
  | Event.binMsg _now id payload =>
      if s.ws = some id then
        let s1 : State :=
          if s.hasReceivedData then s
          else { s with hasReceivedData := true, fallbackTimerArmed := false }
        if s1.jmuxer.isSome = true ∧ 0 < payload.length then
          { s1 with fed := s1.fed ++ [payload] }
        else s1
      else s
  | Event.bufferError now =>
      if shouldReconnect s now then
        { s with lastErrorTime := now, resyncCount := s.resyncCount + 1,
                 resyncArmed := some 100 }
      else s
  | Event.otherDecodeError _now => s
  | Event.wsErrorEv _now id =>
      if s.ws = some id then
        { s with errorMessage := some ErrMsg.connectionError, status := Status.error }
      else s
  | Event.closeEv _now id =>
      if s.ws = some id then
        { s with status := Status.disconnected, reconnectArmed := some 3000,
                 openWs := s.openWs.erase id }
      else s
  | Event.timerFire _now =>
      if s.fallbackTimerArmed then
        let s1 : State := { s with fallbackTimerArmed := false }
        if s1.hasReceivedData = false then
          let s2 : State :=
            { s1 with status := Status.error, errorMessage := some ErrMsg.streamTimeout,
                      openWs := match s1.ws with
                                | some w => s1.openWs.erase w
                                | none => s1.openWs }
          if p.onFallbackProvided then { s2 with fallbackFires := s2.fallbackFires + 1 }
          else s2
        else s1
      else s
  | Event.reconnectFire now =>
      if s.reconnectArmed.isSome then connect now { s with reconnectArmed := none } else s
  | Event.resyncFire now =>
      if s.resyncArmed.isSome then connect now { s with resyncArmed := none } else s

/-- Run a sequence of events. -/
def run (p : Props) (s : State) (es : List Event) : State :=
  es.foldl (step p) s

/-- State at component creation: all refs at their initial values, both
timestamp refs at 0, no instances yet. -/
def initState : State :=
  ⟨Status.connecting, none, false, false, 0, none, none, 0, 0, 0,
   none, [], none, [], [], 0, []⟩

/-- State after mounting at time t0: the effect hook calls connect once. -/
def mount (t0 : Nat) : State := connect t0 initState

/-- Every timer delay and debounce window of the debounced variant: the
fallback timer delay (the prop with its default), the 3000 ms reconnect
delay, the 100 ms resync delay, the 300 ms cleanup pause, and the 1000,
500 and 2000 ms debounce windows of the buffer-error handler. -/
def timeoutList (p : Props) : List Nat :=
  [p.effFallbackTimeout, 3000, 100, 300, 1000, 500, 2000]

end Debounced

/-!
## The debounced variant with the cleanup pause made explicit

The connect function of the debounced variant is an async function: after
nulling the old WebSocket handlers, closing the old WebSocket and
destroying the old jMuxer instance, it awaits a 300 ms timer before
creating the fresh jMuxer and WebSocket and storing them in the shared
refs.  The await is a suspension point of the JavaScript event loop, so
another timer callback — the auto-reconnect scheduled by onclose, or the
resync scheduled by the buffer-error handler — can run a second connect
call while the first is suspended.  The resumption after the pause does no
cleanup of its own: it overwrites jmuxerRef and wsRef with the fresh
instances, leaving whatever another resumption had stored there alive.

This namespace transcribes that connect as two steps: beginConnect is the
synchronous prefix up to the await (record the connect time, reset status
and message, close the current WebSocket after removing its handlers,
destroy the current jMuxer, then suspend — counted in pending), and
resumeConnect is the resumption of one suspended call (create one fresh
jMuxer and one fresh WebSocket and store them in the refs, without any
cleanup).  The event set is restricted to the events that touch the
socket and decoder registries — connect entry, the two timers that invoke
connect, the resumption, WebSocket close, and the decoder buffer error;
message and fallback-timer events change neither registry membership nor
the refs and play no part here. -/

namespace Paused

/-- State of the connect lifecycle of the debounced variant: the shared
refs, the timer arms, the registries of open WebSockets and live jMuxer
instances, and the number of connect calls currently suspended in the
300 ms cleanup pause. -/
structure State where
  status : Status
  errorMessage : Option ErrMsg
  reconnectArmed : Option Nat
  resyncArmed : Option Nat
  lastErrorTime : Nat
  lastConnectTime : Nat
  pending : Nat
  ws : Option Nat
  openWs : List Nat
  jmuxer : Option Nat
  liveJmuxers : List Nat
  destroyedJmuxers : List Nat
  nextId : Nat
deriving DecidableEq, Repr

/-- Events of the connect lifecycle; every event carries the current
Date.now value. -/
inductive Event
  | beginConnect (now : Nat)
  | resumeConnect (now : Nat)
  | bufferError (now : Nat)
  | closeEv (now : Nat) (id : Nat)
  | reconnectFire (now : Nat)
  | resyncFire (now : Nat)
deriving DecidableEq, Repr

/-- The synchronous prefix of the async connect function, up to the
awaited 300 ms pause: record the connect time, set status connecting,
clear the error message, close the current WebSocket after removing its
handlers, destroy the current jMuxer instance, and suspend. -/
def beginConnect (now : Nat) (s0 : State) : State :=
  let s1 : State :=
    { s0 with lastConnectTime := now, status := Status.connecting, errorMessage := none }
  let s2 : State :=
    match s1.ws with
    | some w => { s1 with ws := none, openWs := s1.openWs.erase w }
    | none => s1
  let s3 : State :=
    match s2.jmuxer with
    | some j =>
        { s2 with jmuxer := none, liveJmuxers := s2.liveJmuxers.erase j,
                  destroyedJmuxers := s2.destroyedJmuxers ++ [j] }
    | none => s2
  { s3 with pending := s3.pending + 1 }

/-- The resumption of one suspended connect call after its 300 ms pause:
create a fresh jMuxer instance and a fresh WebSocket and store them in
the shared refs.  No cleanup happens here — an instance another
resumption had stored in the refs stays open and live. -/
def resumeConnect (s : State) : State :=
  if s.pending = 0 then s
  else
    { s with pending := s.pending - 1,
             jmuxer := some s.nextId, liveJmuxers := s.liveJmuxers ++ [s.nextId],
             ws := some (s.nextId + 1), openWs := s.openWs ++ [s.nextId + 1],
             nextId := s.nextId + 2 }

/-- The debounce decision of the buffer-error handler, as in the
Debounced namespace. -/
def shouldReconnect (s : State) (now : Nat) : Bool :=
  if now - s.lastConnectTime < 1000 then decide (500 < now - s.lastErrorTime)
  else decide (2000 < now - s.lastErrorTime)

/-- One event of the connect lifecycle. -/
def step (s : State) : Event → State
  | Event.beginConnect now => beginConnect now s
  | Event.resumeConnect _now => resumeConnect s
  | Event.bufferError now =>
      if shouldReconnect s now then
        { s with lastErrorTime := now, resyncArmed := some 100 }
      else s
  | Event.closeEv _now id =>
      if s.ws = some id then
        { s with status := Status.disconnected, reconnectArmed := some 3000,
                 openWs := s.openWs.erase id }
      else s
  | Event.reconnectFire now =>
      if s.reconnectArmed.isSome then
        beginConnect now { s with reconnectArmed := none }
      else s
  | Event.resyncFire now =>
      if s.resyncArmed.isSome then
        beginConnect now { s with resyncArmed := none }
      else s

/-- Run a sequence of events. -/
def run (s : State) (es : List Event) : State :=
  es.foldl step s

/-- State at component creation: both timestamp refs at 0, nothing armed,
no instances, no suspended connect call. -/
def initState : State :=
  ⟨Status.connecting, none, none, none, 0, 0, 0, none, [], none, [], [], 0⟩

end Paused

/-!
## Server-side ParameterCache and Broadcaster

The server code implementing these components is not among the provided
source files; only the documentation file records that parameter sets are
cached and sent to new clients.  The definitions in this namespace are
therefore modelled from the spec (sections 3, 4.3, 4.4 and 5).
-/

namespace Broadcast

/-- Modelled from the spec: the NalUnit type tag of section 3. -/
inductive NalType
  | paramA
  | paramB
  | intra
  | inter
  | other
deriving DecidableEq, Repr

/-- Modelled from the spec: a NalUnit is a byte payload plus a unit-type
tag, immutable once framed. -/
structure NalUnit where
  typ : NalType
  payload : List Nat
deriving DecidableEq, Repr

/-- A frame-carrying unit (intra or inter), as opposed to out-of-band
configuration units. -/
def NalUnit.isFrame (u : NalUnit) : Bool :=
  u.typ = NalType.intra ∨ u.typ = NalType.inter

/-- Modelled from the spec: the ParameterBundle ordered tuple
(parameter-set-A, parameter-set-B, most recent intra frame). -/
structure Bundle where
  a : NalUnit
  b : NalUnit
  i : NalUnit
deriving DecidableEq, Repr

/-- The three bundle units in delivery order. -/
def Bundle.units (bu : Bundle) : List NalUnit :=
  [bu.a, bu.b, bu.i]

/-- A consumer as the Broadcaster sees it: the units delivered to it so
far, and the bundle replay it got at attach time (a prefix of the
former). -/
structure Consumer where
  received : List NalUnit
  replay : List NalUnit
deriving DecidableEq, Repr

/-- Modelled from the spec: the per-device session state visible to the
cache and the broadcaster — the staged parameter sets, the committed
bundle, and the attached consumers. -/
structure SessionState where
  stagedA : Option NalUnit
  stagedB : Option NalUnit
  bundle : Option Bundle
  consumers : List Consumer
deriving DecidableEq, Repr

/-- Modelled from the spec: ParameterCache.onUnit — stage a parameter-set
unit; on an intra frame atomically commit the staged parameter sets plus
this frame as the new bundle, replacing any prior bundle; a no-op for
inter frames and other types. -/
def cacheOnUnit (u : NalUnit) (s : SessionState) : SessionState :=
  match u.typ with
  | NalType.paramA => { s with stagedA := some u }
  | NalType.paramB => { s with stagedB := some u }
  | NalType.intra =>
      match s.stagedA, s.stagedB with
      | some a, some b => { s with bundle := some ⟨a, b, u⟩ }
      | _, _ => s
  | _ => s

/-- Modelled from the spec: Broadcaster.attach — if a bundle exists, first
deliver its three units to the new consumer in order, then enroll it in
the live fan-out; if no bundle exists yet, enroll directly. -/
def attach (s : SessionState) : SessionState :=
  let replay : List NalUnit :=
    match s.bundle with
    | some bu => bu.units
    | none => []
  { s with consumers := s.consumers ++ [⟨replay, replay⟩] }

/-- Modelled from the spec: broadcast — deliver the unit to every enrolled
consumer, preserving per-consumer order. -/
def broadcast (u : NalUnit) (s : SessionState) : SessionState :=
  { s with consumers := s.consumers.map (fun c => { c with received := c.received ++ [u] }) }

/-- Modelled from the spec, section 5: one atomic ingestion step — update
the cache, then broadcast the unit. -/
def ingest (u : NalUnit) (s : SessionState) : SessionState :=
  broadcast u (cacheOnUnit u s)

/-- Session-level events: a unit arriving from the ingester, or a consumer
attaching. -/
inductive Event
  | ingestU (u : NalUnit)
  | attachC
deriving DecidableEq, Repr

/-- One session step. -/
def bstep (s : SessionState) : Event → SessionState
  | Event.ingestU u => ingest u s
  | Event.attachC => attach s

/-- Run a sequence of session events. -/
def brun (s : SessionState) (es : List Event) : SessionState :=
  es.foldl bstep s

/-- Fresh session state. -/
def initState : SessionState := ⟨none, none, none, []⟩

/-- The units ingested during a sequence of events, in order: exactly the
live units broadcast during it. -/
def liveUnits (es : List Event) : List NalUnit :=
  es.filterMap (fun e => match e with
    | Event.ingestU u => some u
    | Event.attachC => none)

/-- A well-formedness property of an elementary stream segment: its first
frame-carrying unit, if any, is an intra frame (no inter frame precedes
the first intra frame). -/
def firstFrameIntra (l : List NalUnit) : Bool :=
  match l.find? NalUnit.isFrame with
  | some f => f.typ = NalType.intra
  | none => true

/-- Type-consistency of the cache: staged units and committed bundles hold
units of the advertised types. -/
def TypesOk (s : SessionState) : Prop :=
  (∀ u, s.stagedA = some u → u.typ = NalType.paramA)
  ∧ (∀ u, s.stagedB = some u → u.typ = NalType.paramB)
  ∧ (∀ bu, s.bundle = some bu →
      bu.a.typ = NalType.paramA ∧ bu.b.typ = NalType.paramB ∧ bu.i.typ = NalType.intra)

end Broadcast

end AutoGLM

open AutoGLM

/-- Claim C5: whenever the transport of the PlaybackClient closes — in
particular while streaming or degraded — the client enters the
disconnected state and arms the auto-reconnect timer with the same fixed
3000 ms backoff delay; this holds from every state, in both variants. -/
theorem c5_close_enters_disconnected_fixed_backoff :
    (∀ (p : Props) (s : Simple.State),
        (Simple.step p s Simple.Event.closeEv).status = Status.disconnected
      ∧ (Simple.step p s Simple.Event.closeEv).reconnectArmed = some 3000)
  ∧ (∀ (p : Props) (s : Debounced.State) (now w : Nat),
        s.ws = some w →
        (Debounced.step p s (Debounced.Event.closeEv now w)).status = Status.disconnected
      ∧ (Debounced.step p s (Debounced.Event.closeEv now w)).reconnectArmed = some 3000) := by
  constructor
  · intro p s
    constructor <;> rfl
  · intro p s now w h
    constructor <;> simp [Debounced.step, h]

/-- Witness for C5 at a concrete state of the debounced variant. -/
theorem c5_witness :
    (Debounced.step ⟨true, none⟩ (Debounced.mount 5)
      (Debounced.Event.closeEv 9 1)).status = Status.disconnected :=
  (c5_close_enters_disconnected_fixed_backoff.2 ⟨true, none⟩ (Debounced.mount 5) 9 1 rfl).1

/-- Claim C6: a text message is treated as a structured error
notification: it is never fed to the decoder and does not count as
received data; a message that fails to parse as JSON changes nothing at
all; a parsed message surfaces its error field only as the error status
and message, and fires the fallback callback exactly when it is provided
and no video data has been received yet. -/
theorem c6_text_message_handling :
    ∀ (p : Props) (s : Simple.State) (parsed : Option (Option (List Nat))),
      (Simple.step p s (Simple.Event.textMsg parsed)).fed = s.fed
    ∧ (Simple.step p s (Simple.Event.textMsg parsed)).hasReceivedData = s.hasReceivedData
    ∧ (parsed = none → Simple.step p s (Simple.Event.textMsg parsed) = s)
    ∧ (∀ field, parsed = some field →
          (Simple.step p s (Simple.Event.textMsg parsed)).status = Status.error
        ∧ (Simple.step p s (Simple.Event.textMsg parsed)).errorMessage = some (errorText field)
        ∧ (Simple.step p s (Simple.Event.textMsg parsed)).fallbackFires
            = s.fallbackFires
              + (if p.onFallbackProvided = true ∧ s.hasReceivedData = false then 1 else 0)) := by
  intro p s parsed
  cases parsed with
  | none => exact ⟨rfl, rfl, fun _ => rfl, fun field h => by cases h⟩
  | some field =>
      refine ⟨?_, ?_, ?_, ?_⟩
      · simp only [Simple.step]
        split <;> rfl
      · simp only [Simple.step]
        split <;> rfl
      · intro h
        cases h
      · intro f hf
        cases hf
        refine ⟨?_, ?_, ?_⟩ <;> simp only [Simple.step] <;> split <;> simp_all

/-- Witness for C6 at a concrete parsed error message. -/
theorem c6_witness :
    (Simple.step ⟨true, none⟩ Simple.mount
      (Simple.Event.textMsg (some (some [65])))).errorMessage
      = some (errorText (some [65])) :=
  ((c6_text_message_handling ⟨true, none⟩ Simple.mount (some (some [65]))).2.2.2
    (some [65]) rfl).2.1

/-- Claim C7: every timeout and debounce window either variant of the
PlaybackClient uses is a finite value bounded, for each instantiation of
the public props, by the maximum of the effective fallback timeout and
3000 ms; no prop configuration yields an infinite or absent timeout. -/
theorem c7_timeouts_bounded :
    ∀ (p : Props) (t : Nat),
      (t ∈ Simple.timeoutList p ∨ t ∈ Debounced.timeoutList p) →
      t ≤ max p.effFallbackTimeout 3000 := by
  intro p t h
  have h1 : p.effFallbackTimeout ≤ max p.effFallbackTimeout 3000 := le_max_left _ _
  have h2 : 3000 ≤ max p.effFallbackTimeout 3000 := le_max_right _ _
  rcases h with h | h <;>
    simp only [Simple.timeoutList, Debounced.timeoutList, List.mem_cons,
      List.mem_singleton, List.not_mem_nil, or_false] at h <;>
    rcases h with rfl | h <;> try exact h1
  · omega
  · rcases h with rfl | rfl | rfl | rfl | rfl | rfl <;> omega

/-- Witness for C7 at the 3000 ms reconnect delay with default props. -/
theorem c7_witness :
    3000 ≤ max (Props.effFallbackTimeout ⟨true, none⟩) 3000 :=
  c7_timeouts_bounded ⟨true, none⟩ 3000 (Or.inl (by decide))

/-- Claim C9: a zero-length binary message arriving as first data sets the
hasReceivedData latch and cancels the fallback timer but is not fed to the
decoder; in general only payloads with positive byte length ever reach the
decoder feed. -/
theorem c9_zero_length_binary :
    ∀ (p : Props) (s : Simple.State) (payload : List Nat),
      (payload = [] → s.hasReceivedData = false →
          (Simple.step p s (Simple.Event.binMsg payload)).hasReceivedData = true
        ∧ (Simple.step p s (Simple.Event.binMsg payload)).fallbackTimerArmed = false
        ∧ (Simple.step p s (Simple.Event.binMsg payload)).fed = s.fed)
    ∧ (∀ q, q ∈ (Simple.step p s (Simple.Event.binMsg payload)).fed →
          q ∈ s.fed ∨ (q = payload ∧ 0 < payload.length)) := by
  intro p s payload
  constructor
  · rintro rfl hrd
    simp [Simple.step, hrd]
  · intro q hq
    simp only [Simple.step] at hq
    by_cases hrd : s.hasReceivedData <;> simp [hrd] at hq <;> split at hq <;> simp_all

/-- Witness for C9: an empty payload as first data, and a fed payload is
positive-length. -/
theorem c9_witness :
    (Simple.step ⟨true, none⟩ Simple.mount (Simple.Event.binMsg [])).fed
      = Simple.mount.fed :=
  ((c9_zero_length_binary ⟨true, none⟩ Simple.mount []).1 rfl rfl).2.2

/-- Claim C2 counterexample: with onFallback provided, run the simple
variant through a first connection that receives one byte of video and
then closes, followed by the automatic reconnect: on the second connection
attempt the handshake succeeds (the fallback timer is armed) and zero
bytes arrive before the timer expires, yet onFallback has fired zero
times in total — not exactly once for that attempt, because the
hasReceivedData latch set during the first connection suppresses it. -/
theorem c2_counterexample :
    (Simple.run ⟨true, none⟩ Simple.mount
      [Simple.Event.openEv, Simple.Event.binMsg [1], Simple.Event.closeEv,
       Simple.Event.reconnectFire, Simple.Event.openEv]).fallbackTimerArmed = true
  ∧ (Simple.run ⟨true, none⟩ Simple.mount
      [Simple.Event.openEv, Simple.Event.binMsg [1], Simple.Event.closeEv,
       Simple.Event.reconnectFire, Simple.Event.openEv,
       Simple.Event.timerFire]).fallbackFires = 0 := by
  constructor <;> rfl

/-- Claim C2 as amended: on a connection attempt whose handshake succeeded
(fallback timer armed), if no video data has been received on this or any
earlier connection of the instance and no text error message arrives
before the timer expires, then the expiring timer fires the provided
onFallback exactly once — the timer is disarmed by firing, so a further
expiry adds nothing; if video data was already received on an earlier
connection, the expiring timer fires onFallback zero times. -/
theorem c2_fallback_once_amended :
    ∀ (p : Props) (s : Simple.State),
      p.onFallbackProvided = true →
      s.fallbackTimerArmed = true →
      ((s.hasReceivedData = false →
          (Simple.step p s Simple.Event.timerFire).fallbackFires = s.fallbackFires + 1
        ∧ (Simple.step p s Simple.Event.timerFire).fallbackTimerArmed = false
        ∧ (Simple.step p (Simple.step p s Simple.Event.timerFire)
            Simple.Event.timerFire).fallbackFires = s.fallbackFires + 1)
      ∧ (s.hasReceivedData = true →
          (Simple.step p s Simple.Event.timerFire).fallbackFires = s.fallbackFires)) := by
  intro p s hp ht
  constructor
  · intro hrd
    simp [Simple.step, ht, hrd, hp]
  · intro hrd
    simp [Simple.step, ht, hrd]

/-- Witness for the amended C2 at a concrete armed state with no data. -/
theorem c2_witness :
    (Simple.step ⟨true, none⟩ (Simple.step ⟨true, none⟩ Simple.mount Simple.Event.openEv)
      Simple.Event.timerFire).fallbackFires
      = (Simple.step ⟨true, none⟩ Simple.mount Simple.Event.openEv).fallbackFires + 1 :=
  ((c2_fallback_once_amended ⟨true, none⟩
    (Simple.step ⟨true, none⟩ Simple.mount Simple.Event.openEv) rfl rfl).1 rfl).1

/-- Field accounting for the connect function of the debounced variant:
the refs it leaves alone, and the fresh instances it installs. -/
theorem Debounced.connect_fields (now : Nat) (s : Debounced.State) :
    (Debounced.connect now s).hasReceivedData = s.hasReceivedData
  ∧ (Debounced.connect now s).fallbackFires = s.fallbackFires
  ∧ (Debounced.connect now s).fallbackTimerArmed = s.fallbackTimerArmed
  ∧ (Debounced.connect now s).reconnectArmed = s.reconnectArmed
  ∧ (Debounced.connect now s).resyncArmed = s.resyncArmed
  ∧ (Debounced.connect now s).resyncCount = s.resyncCount
  ∧ (Debounced.connect now s).nextId = s.nextId + 2
  ∧ (Debounced.connect now s).ws = some (s.nextId + 1)
  ∧ (Debounced.connect now s).jmuxer = some s.nextId
  ∧ (Debounced.connect now s).lastConnectTime = now
  ∧ (Debounced.connect now s).lastErrorTime = s.lastErrorTime
  ∧ (Debounced.connect now s).status = Status.connecting
  ∧ (Debounced.connect now s).fed = s.fed := by
  simp only [Debounced.connect]
  cases s.ws <;> cases s.jmuxer <;> simp

/-- Per-step helper for C8: once the hasReceivedData latch of the simple
variant is set, no event resets it, and the onFallback call count never
changes again. -/
theorem Simple.latchStepFrozen (p : Props) (s : Simple.State) (e : Simple.Event)
    (h : s.hasReceivedData = true) :
    (Simple.step p s e).hasReceivedData = true
      ∧ (Simple.step p s e).fallbackFires = s.fallbackFires := by
  cases e with
  | openEv => exact ⟨h, rfl⟩
  | textMsg parsed =>
      cases parsed with
      | none => exact ⟨h, rfl⟩
      | some field => simp [Simple.step, h]
  | binMsg payload =>
      simp only [Simple.step]
      rw [if_pos h]
      split <;> exact ⟨h, rfl⟩
  | wsErrorEv => exact ⟨h, rfl⟩
  | closeEv => exact ⟨h, rfl⟩
  | timerFire =>
      simp only [Simple.step]
      split
      · simp [h]
      · exact ⟨h, rfl⟩
  | reconnectFire =>
      simp only [Simple.step]
      split
      · exact ⟨h, rfl⟩
      · exact ⟨h, rfl⟩

/-- Trace-level helper for C8 on the simple variant. -/
theorem Simple.latchRunFrozen (p : Props) (es : List Simple.Event) :
    ∀ s : Simple.State, s.hasReceivedData = true →
      (Simple.run p s es).hasReceivedData = true
        ∧ (Simple.run p s es).fallbackFires = s.fallbackFires := by
  induction es with
  | nil => exact fun s h => ⟨h, rfl⟩
  | cons e es ih =>
      intro s h
      have hs := Simple.latchStepFrozen p s e h
      have := ih (Simple.step p s e) hs.1
      exact ⟨this.1, by rw [Simple.run] at this ⊢; simp only [List.foldl_cons]; omega⟩

/-- Per-step helper for C8 on the debounced variant. -/
theorem Debounced.latchStepKept (p : Props) (s : Debounced.State) (e : Debounced.Event)
    (h : s.hasReceivedData = true) :
    (Debounced.step p s e).hasReceivedData = true
      ∧ (Debounced.step p s e).fallbackFires = s.fallbackFires := by
  cases e with
  | openEv now => exact ⟨h, rfl⟩
  | textMsg now id parsed =>
      simp only [Debounced.step]
      split
      · cases parsed with
        | none => exact ⟨h, rfl⟩
        | some field => simp [h]
      · exact ⟨h, rfl⟩
  | binMsg now id payload =>
      simp only [Debounced.step]
      split
      · (repeat' split) <;> simp [h]
      · exact ⟨h, rfl⟩
  | bufferError now =>
      simp only [Debounced.step]
      split <;> exact ⟨h, rfl⟩
  | otherDecodeError now => exact ⟨h, rfl⟩
  | wsErrorEv now id =>
      simp only [Debounced.step]
      split <;> exact ⟨h, rfl⟩
  | closeEv now id =>
      simp only [Debounced.step]
      split <;> exact ⟨h, rfl⟩
  | timerFire now =>
      simp only [Debounced.step]
      split
      · simp [h]
      · exact ⟨h, rfl⟩
  | reconnectFire now =>
      simp only [Debounced.step]
      split
      · have hc := Debounced.connect_fields now { s with reconnectArmed := none }
        exact ⟨by rw [hc.1]; exact h, hc.2.1⟩
      · exact ⟨h, rfl⟩
  | resyncFire now =>
      simp only [Debounced.step]
      split
      · have hc := Debounced.connect_fields now { s with resyncArmed := none }
        exact ⟨by rw [hc.1]; exact h, hc.2.1⟩
      · exact ⟨h, rfl⟩

/-- Trace-level helper for C8 on the debounced variant. -/
theorem Debounced.latchRunKept (p : Props) (es : List Debounced.Event) :
    ∀ s : Debounced.State, s.hasReceivedData = true →
      (Debounced.run p s es).hasReceivedData = true
        ∧ (Debounced.run p s es).fallbackFires = s.fallbackFires := by
  induction es with
  | nil => exact fun s h => ⟨h, rfl⟩
  | cons e es ih =>
      intro s h
      have hs := Debounced.latchStepKept p s e h
      have := ih (Debounced.step p s e) hs.1
      exact ⟨this.1, by rw [Debounced.run] at this ⊢; simp only [List.foldl_cons]; omega⟩

/-- Near a connect, the debounce decision uses the 500 ms quiet window. -/
theorem Debounced.shouldReconnect_near (s : Debounced.State) (now : Nat)
    (h : now - s.lastConnectTime < 1000) :
    Debounced.shouldReconnect s now = decide (500 < now - s.lastErrorTime) := by
  simp only [Debounced.shouldReconnect]
  rw [if_pos h]

/-- Away from a connect, the debounce decision uses the 2000 ms quiet
window. -/
theorem Debounced.shouldReconnect_far (s : Debounced.State) (now : Nat)
    (h : 1000 ≤ now - s.lastConnectTime) :
    Debounced.shouldReconnect s now = decide (2000 < now - s.lastErrorTime) := by
  simp only [Debounced.shouldReconnect]
  rw [if_neg (by omega)]

/-- Effect of a buffer error when the debounce decides to resync. -/
theorem Debounced.bufferError_true (p : Props) (s : Debounced.State) (now : Nat)
    (h : Debounced.shouldReconnect s now = true) :
    Debounced.step p s (Debounced.Event.bufferError now)
      = { s with lastErrorTime := now, resyncCount := s.resyncCount + 1,
                 resyncArmed := some 100 } := by
  simp [Debounced.step, h]

/-- Effect of a buffer error when the debounce suppresses the resync. -/
theorem Debounced.bufferError_false (p : Props) (s : Debounced.State) (now : Nat)
    (h : Debounced.shouldReconnect s now = false) :
    Debounced.step p s (Debounced.Event.bufferError now) = s := by
  simp [Debounced.step, h]

/-- Effect of the scheduled resync firing while armed. -/
theorem Debounced.resyncFire_armed (p : Props) (s : Debounced.State) (now : Nat)
    (h : s.resyncArmed.isSome = true) :
    Debounced.step p s (Debounced.Event.resyncFire now)
      = Debounced.connect now { s with resyncArmed := none } := by
  simp [Debounced.step, h]

/-- The cache update never touches the consumer list. -/
theorem Broadcast.cacheOnUnit_consumers (u : Broadcast.NalUnit) (s : Broadcast.SessionState) :
    (Broadcast.cacheOnUnit u s).consumers = s.consumers := by
  simp only [Broadcast.cacheOnUnit]
  cases u.typ <;>
    first
      | rfl
      | (cases s.stagedA <;> cases s.stagedB <;> rfl)

/-- The cache update and the attach operation never touch the committed
bundle of other steps; broadcast never touches the cache at all. -/
theorem Broadcast.ingest_bundle (u : Broadcast.NalUnit) (s : Broadcast.SessionState)
    (h : u.typ ≠ Broadcast.NalType.intra) :
    (Broadcast.ingest u s).bundle = s.bundle := by
  simp only [Broadcast.ingest, Broadcast.broadcast, Broadcast.cacheOnUnit]
  cases hu : u.typ <;> simp_all

/-- An enrolled consumer keeps its replay and receives exactly the units
ingested afterwards, in order, appended to what it already had. -/
theorem Broadcast.consumer_run (es : List Broadcast.Event) :
    ∀ (s : Broadcast.SessionState) (k : Nat) (c : Broadcast.Consumer),
      s.consumers[k]? = some c →
      (Broadcast.brun s es).consumers[k]?
        = some ⟨c.received ++ Broadcast.liveUnits es, c.replay⟩ := by
  induction es with
  | nil =>
      intro s k c h
      simpa [Broadcast.brun, Broadcast.liveUnits] using h
  | cons e es ih =>
      intro s k c h
      cases e with
      | ingestU u =>
          have h2 : (Broadcast.ingest u s).consumers[k]?
              = some ⟨c.received ++ [u], c.replay⟩ := by
            simp only [Broadcast.ingest, Broadcast.broadcast,
              Broadcast.cacheOnUnit_consumers, List.getElem?_map, h]
            rfl
          have h3 := ih (Broadcast.ingest u s) k ⟨c.received ++ [u], c.replay⟩ h2
          have hsplit : Broadcast.brun s (Broadcast.Event.ingestU u :: es)
              = Broadcast.brun (Broadcast.ingest u s) es := rfl
          rw [hsplit, h3]
          simp [Broadcast.liveUnits, List.filterMap_cons]
      | attachC =>
          have hk : k < s.consumers.length := by
            by_contra hk
            rw [List.getElem?_eq_none (by omega)] at h
            cases h
          have h2 : (Broadcast.attach s).consumers[k]? = some c := by
            simp only [Broadcast.attach]
            rw [List.getElem?_append, if_pos hk]
            exact h
          have h3 := ih (Broadcast.attach s) k c h2
          have hsplit : Broadcast.brun s (Broadcast.Event.attachC :: es)
              = Broadcast.brun (Broadcast.attach s) es := rfl
          rw [hsplit, h3]
          simp [Broadcast.liveUnits, List.filterMap_cons]

/-- The consumer enrolled by an attach starts with the bundle replay (or
nothing when no bundle is committed). -/
theorem Broadcast.attach_new (s : Broadcast.SessionState) :
    (Broadcast.attach s).consumers[s.consumers.length]?
      = some ⟨(match s.bundle with | some bu => bu.units | none => []),
              (match s.bundle with | some bu => bu.units | none => [])⟩ := by
  simp only [Broadcast.attach]
  exact List.getElem?_concat_length _ _

/-- No committed bundle appears while no intra frame has been ingested. -/
theorem Broadcast.bundle_none (es : List Broadcast.Event) :
    ∀ s : Broadcast.SessionState, s.bundle = none →
      (∀ u, Broadcast.Event.ingestU u ∈ es → u.typ ≠ Broadcast.NalType.intra) →
      (Broadcast.brun s es).bundle = none := by
  induction es with
  | nil => exact fun s h _ => h
  | cons e es ih =>
      intro s h hno
      cases e with
      | ingestU u =>
          have hu : u.typ ≠ Broadcast.NalType.intra :=
            hno u (List.mem_cons_self _ _)
          have h2 : (Broadcast.ingest u s).bundle = none := by
            rw [Broadcast.ingest_bundle u s hu]
            exact h
          exact ih (Broadcast.ingest u s) h2 (fun v hv => hno v (List.mem_cons_of_mem _ hv))
      | attachC =>
          exact ih (Broadcast.attach s) h (fun v hv => hno v (List.mem_cons_of_mem _ hv))

/-- Every session step preserves type-consistency of the cache. -/
theorem Broadcast.typesOk_step (s : Broadcast.SessionState) (e : Broadcast.Event)
    (h : Broadcast.TypesOk s) : Broadcast.TypesOk (Broadcast.bstep s e) := by
  obtain ⟨ha, hb, hbu⟩ := h
  cases e with
  | attachC => exact ⟨ha, hb, hbu⟩
  | ingestU u =>
      show Broadcast.TypesOk (Broadcast.broadcast u (Broadcast.cacheOnUnit u s))
      have : Broadcast.TypesOk (Broadcast.cacheOnUnit u s) := by
        simp only [Broadcast.cacheOnUnit]
        cases hu : u.typ with
        | paramA =>
            refine ⟨?_, hb, hbu⟩
            intro v hv
            have hv2 : some u = some v := hv
            injection hv2 with hv2
            subst hv2
            exact hu
        | paramB =>
            refine ⟨ha, ?_, hbu⟩
            intro v hv
            have hv2 : some u = some v := hv
            injection hv2 with hv2
            subst hv2
            exact hu
        | intra =>
            cases hsa : s.stagedA with
            | none => exact ⟨ha, hb, hbu⟩
            | some a =>
                cases hsb : s.stagedB with
                | none => exact ⟨ha, hb, hbu⟩
                | some b =>
                    refine ⟨?_, ?_, ?_⟩
                    · intro v hv
                      have hv2 : some a = some v := hv
                      injection hv2 with hv2
                      subst hv2
                      exact ha a hsa
                    · intro v hv
                      have hv2 : some b = some v := hv
                      injection hv2 with hv2
                      subst hv2
                      exact hb b hsb
                    · intro bu hv
                      have hv2 : some (⟨a, b, u⟩ : Broadcast.Bundle) = some bu := hv
                      injection hv2 with hv2
                      subst hv2
                      exact ⟨ha a hsa, hb b hsb, hu⟩
        | inter => exact ⟨ha, hb, hbu⟩
        | other => exact ⟨ha, hb, hbu⟩
      exact this

/-- Any event sequence preserves type-consistency of the cache. -/
theorem Broadcast.typesOk_run (es : List Broadcast.Event) :
    ∀ s : Broadcast.SessionState, Broadcast.TypesOk s →
      Broadcast.TypesOk (Broadcast.brun s es) := by
  induction es with
  | nil => exact fun s h => h
  | cons e es ih => exact fun s h => ih _ (Broadcast.typesOk_step s e h)

/-- Claim C4: a consumer that attaches while a ParameterBundle exists
first receives exactly the three bundle units — of types parameter-set-A,
parameter-set-B and intra-frame, in that order — and then exactly the live
units ingested after its attach; a consumer that attaches before any intra
frame has been ingested gets no bundle replay, receives exactly the live
units ingested after its attach, and, for a well-formed stream, the first
frame-carrying unit it receives is an intra frame.  Settled against the
spec-modelled Broadcast definitions. -/
theorem c4_attach_bundle_replay :
    (∀ (es1 es2 : List Broadcast.Event) (bu : Broadcast.Bundle),
        (Broadcast.brun Broadcast.initState es1).bundle = some bu →
          (Broadcast.brun Broadcast.initState
              (es1 ++ Broadcast.Event.attachC :: es2)).consumers[
              (Broadcast.brun Broadcast.initState es1).consumers.length]?
            = some ⟨bu.units ++ Broadcast.liveUnits es2, bu.units⟩
        ∧ bu.a.typ = Broadcast.NalType.paramA
        ∧ bu.b.typ = Broadcast.NalType.paramB
        ∧ bu.i.typ = Broadcast.NalType.intra)
  ∧ (∀ (es1 es2 : List Broadcast.Event),
        (∀ u, Broadcast.Event.ingestU u ∈ es1 → u.typ ≠ Broadcast.NalType.intra) →
        ∃ c : Broadcast.Consumer,
          (Broadcast.brun Broadcast.initState
              (es1 ++ Broadcast.Event.attachC :: es2)).consumers[
              (Broadcast.brun Broadcast.initState es1).consumers.length]?
            = some c
        ∧ c.replay = []
        ∧ c.received = Broadcast.liveUnits es2
        ∧ (Broadcast.firstFrameIntra (Broadcast.liveUnits es2) = true →
            ∀ f, c.received.find? Broadcast.NalUnit.isFrame = some f →
              f.typ = Broadcast.NalType.intra)) := by
  have hsplit : ∀ (es1 es2 : List Broadcast.Event),
      Broadcast.brun Broadcast.initState (es1 ++ Broadcast.Event.attachC :: es2)
        = Broadcast.brun (Broadcast.attach (Broadcast.brun Broadcast.initState es1)) es2 := by
    intro es1 es2
    simp [Broadcast.brun, List.foldl_append, Broadcast.bstep]
  constructor
  · intro es1 es2 bu hbu
    have hattach : (Broadcast.attach (Broadcast.brun Broadcast.initState es1)).consumers[
        (Broadcast.brun Broadcast.initState es1).consumers.length]?
          = some ⟨bu.units, bu.units⟩ := by
      have := Broadcast.attach_new (Broadcast.brun Broadcast.initState es1)
      rw [hbu] at this
      exact this
    have hrun := Broadcast.consumer_run es2 _ _ _ hattach
    have hinit : Broadcast.TypesOk Broadcast.initState := by
      refine ⟨?_, ?_, ?_⟩
      · intro u h
        cases h
      · intro u h
        cases h
      · intro b h
        cases h
    have htys := Broadcast.typesOk_run es1 Broadcast.initState hinit
    refine ⟨?_, htys.2.2 bu hbu⟩
    rw [hsplit es1 es2]
    exact hrun
  · intro es1 es2 hno
    have hb0 : (Broadcast.brun Broadcast.initState es1).bundle = none :=
      Broadcast.bundle_none es1 Broadcast.initState rfl hno
    have hattach : (Broadcast.attach (Broadcast.brun Broadcast.initState es1)).consumers[
        (Broadcast.brun Broadcast.initState es1).consumers.length]?
          = some ⟨[], []⟩ := by
      have := Broadcast.attach_new (Broadcast.brun Broadcast.initState es1)
      rw [hb0] at this
      exact this
    have hrun := Broadcast.consumer_run es2 _ _ _ hattach
    refine ⟨⟨Broadcast.liveUnits es2, []⟩, ?_, rfl, rfl, ?_⟩
    · rw [hsplit es1 es2]
      simpa using hrun
    · intro hff f hf
      simp only [Broadcast.firstFrameIntra] at hff
      rw [hf] at hff
      simpa using hff

/-- Witness for C4: the spec scenario — ingest parameter sets A and B and
an intra frame, attach, then ingest an inter frame: the consumer receives
the three bundle units and then the live frame. -/
theorem c4_witness :
    (Broadcast.brun Broadcast.initState
      [Broadcast.Event.ingestU ⟨Broadcast.NalType.paramA, [7]⟩,
       Broadcast.Event.ingestU ⟨Broadcast.NalType.paramB, [8]⟩,
       Broadcast.Event.ingestU ⟨Broadcast.NalType.intra, [5]⟩,
       Broadcast.Event.attachC,
       Broadcast.Event.ingestU ⟨Broadcast.NalType.inter, [1]⟩]).consumers[0]?
      = some ⟨[⟨Broadcast.NalType.paramA, [7]⟩, ⟨Broadcast.NalType.paramB, [8]⟩,
               ⟨Broadcast.NalType.intra, [5]⟩, ⟨Broadcast.NalType.inter, [1]⟩],
              [⟨Broadcast.NalType.paramA, [7]⟩, ⟨Broadcast.NalType.paramB, [8]⟩,
               ⟨Broadcast.NalType.intra, [5]⟩]⟩ := by
  have h := (c4_attach_bundle_replay.1
    [Broadcast.Event.ingestU ⟨Broadcast.NalType.paramA, [7]⟩,
     Broadcast.Event.ingestU ⟨Broadcast.NalType.paramB, [8]⟩,
     Broadcast.Event.ingestU ⟨Broadcast.NalType.intra, [5]⟩]
    [Broadcast.Event.ingestU ⟨Broadcast.NalType.inter, [1]⟩]
    ⟨⟨Broadcast.NalType.paramA, [7]⟩, ⟨Broadcast.NalType.paramB, [8]⟩,
     ⟨Broadcast.NalType.intra, [5]⟩⟩ rfl).1
  simpa using h

/-- Claim C8: once any binary video data has been received, the
hasReceivedData latch stays set for the lifetime of the component instance
under every further event sequence, and the fallback signal count never
changes again — so the data-timeout fallback can never fire on a later
reconnect attempt of the same instance; in both variants. -/
theorem c8_latch_never_reset :
    (∀ (p : Props) (s : Simple.State) (es : List Simple.Event),
        s.hasReceivedData = true →
        (Simple.run p s es).hasReceivedData = true
          ∧ (Simple.run p s es).fallbackFires = s.fallbackFires)
  ∧ (∀ (p : Props) (s : Debounced.State) (es : List Debounced.Event),
        s.hasReceivedData = true →
        (Debounced.run p s es).hasReceivedData = true
          ∧ (Debounced.run p s es).fallbackFires = s.fallbackFires) :=
  ⟨fun p s es h => Simple.latchRunFrozen p es s h,
   fun p s es h => Debounced.latchRunKept p es s h⟩

/-- Witness for C8: after first data on the simple variant, a later
reconnect cycle with an expiring fallback timer fires nothing. -/
theorem c8_witness :
    (Simple.run ⟨true, none⟩
      (Simple.run ⟨true, none⟩ Simple.mount [Simple.Event.openEv, Simple.Event.binMsg [1]])
      [Simple.Event.closeEv, Simple.Event.reconnectFire, Simple.Event.openEv,
       Simple.Event.timerFire]).fallbackFires
      = (Simple.run ⟨true, none⟩ Simple.mount
          [Simple.Event.openEv, Simple.Event.binMsg [1]]).fallbackFires :=
  (c8_latch_never_reset.1 ⟨true, none⟩
    (Simple.run ⟨true, none⟩ Simple.mount [Simple.Event.openEv, Simple.Event.binMsg [1]])
    [Simple.Event.closeEv, Simple.Event.reconnectFire, Simple.Event.openEv,
     Simple.Event.timerFire] rfl).2

/-- Claim C3: refuted as stated — the code intends it (its comments say
the cleanup prevents duplicate connections and multiple jMuxer instances,
and the spec guarantees no old decoder state survives a resync) but the
awaited 300 ms cleanup pause inside the async connect breaks it.  Trace:
mount connects (decoder 0, socket 1); the server closes socket 1, arming
the 3000 ms reconnect; a decoder buffer error 2950 ms later passes the
debounce and arms the 100 ms resync; the reconnect timer enters connect,
cleans up and suspends; the resync timer enters connect during that pause,
finds the refs already empty, and suspends too; both resumptions then
create instances, the second overwriting the refs without destroying or
closing what the first created.  Afterwards two decoder instances (2 and
4) are live and two WebSockets (3 and 5) are open, while the refs hold
only instance 4 and socket 5 — decoder 2 and socket 3 are alive,
unreachable, and no later connect will ever clean them up. -/
theorem c3_failing_trace :
    (Paused.run Paused.initState
      [Paused.Event.beginConnect 0, Paused.Event.resumeConnect 300,
       Paused.Event.closeEv 400 1, Paused.Event.bufferError 3350,
       Paused.Event.reconnectFire 3400, Paused.Event.resyncFire 3450,
       Paused.Event.resumeConnect 3700, Paused.Event.resumeConnect 3750]).liveJmuxers
      = [2, 4]
  ∧ (Paused.run Paused.initState
      [Paused.Event.beginConnect 0, Paused.Event.resumeConnect 300,
       Paused.Event.closeEv 400 1, Paused.Event.bufferError 3350,
       Paused.Event.reconnectFire 3400, Paused.Event.resyncFire 3450,
       Paused.Event.resumeConnect 3700, Paused.Event.resumeConnect 3750]).openWs
      = [3, 5]
  ∧ (Paused.run Paused.initState
      [Paused.Event.beginConnect 0, Paused.Event.resumeConnect 300,
       Paused.Event.closeEv 400 1, Paused.Event.bufferError 3350,
       Paused.Event.reconnectFire 3400, Paused.Event.resyncFire 3450,
       Paused.Event.resumeConnect 3700, Paused.Event.resumeConnect 3750]).jmuxer
      = some 4
  ∧ (Paused.run Paused.initState
      [Paused.Event.beginConnect 0, Paused.Event.resumeConnect 300,
       Paused.Event.closeEv 400 1, Paused.Event.bufferError 3350,
       Paused.Event.reconnectFire 3400, Paused.Event.resyncFire 3450,
       Paused.Event.resumeConnect 3700, Paused.Event.resumeConnect 3750]).ws
      = some 5 := by
  refine ⟨?_, ?_, ?_, ?_⟩ <;> rfl

/-- Claim C10: in the debounced variant, the connect call performed for a
resync removes the old WebSocket handlers before closing it: the resync
itself leaves the reconnect timer untouched, and afterwards a close,
error, text or binary message event of the replaced WebSocket changes
nothing — in particular it never schedules the auto-reconnect timer —
while a close of the newly live WebSocket sets the disconnected state and
arms the 3000 ms auto-reconnect. -/
theorem c10_old_ws_handlers_removed :
    ∀ (p : Props) (s : Debounced.State) (now now2 w : Nat),
      s.ws = some w → w < s.nextId →
        (Debounced.connect now s).reconnectArmed = s.reconnectArmed
      ∧ (Debounced.connect now s).ws = some (s.nextId + 1)
      ∧ Debounced.step p (Debounced.connect now s) (Debounced.Event.closeEv now2 w)
          = Debounced.connect now s
      ∧ (∀ parsed, Debounced.step p (Debounced.connect now s)
          (Debounced.Event.textMsg now2 w parsed) = Debounced.connect now s)
      ∧ (∀ payload, Debounced.step p (Debounced.connect now s)
          (Debounced.Event.binMsg now2 w payload) = Debounced.connect now s)
      ∧ Debounced.step p (Debounced.connect now s) (Debounced.Event.wsErrorEv now2 w)
          = Debounced.connect now s
      ∧ (Debounced.step p (Debounced.connect now s)
          (Debounced.Event.closeEv now2 (s.nextId + 1))).reconnectArmed = some 3000
      ∧ (Debounced.step p (Debounced.connect now s)
          (Debounced.Event.closeEv now2 (s.nextId + 1))).status = Status.disconnected := by
  intro p s now now2 w hw hlt
  have hc := Debounced.connect_fields now s
  have hws : (Debounced.connect now s).ws = some (s.nextId + 1) := hc.2.2.2.2.2.2.2.1
  have hne : ¬((Debounced.connect now s).ws = some w) := by
    rw [hws]
    simp
    omega
  refine ⟨hc.2.2.2.1, hws, ?_, ?_, ?_, ?_, ?_, ?_⟩
  · simp [Debounced.step, hne]
  · intro parsed
    simp [Debounced.step, hne]
  · intro payload
    simp [Debounced.step, hne]
  · simp [Debounced.step, hne]
  · simp [Debounced.step, hws]
  · simp [Debounced.step, hws]

/-- Witness for C10: after a resync from the mounted state, a close event
of the replaced WebSocket changes nothing. -/
theorem c10_witness :
    Debounced.step ⟨true, none⟩ (Debounced.connect 50 (Debounced.mount 0))
        (Debounced.Event.closeEv 60 1)
      = Debounced.connect 50 (Debounced.mount 0) :=
  (c10_old_ws_handlers_removed ⟨true, none⟩ (Debounced.mount 0) 50 60 1
    rfl (by decide)).2.2.1

/-- Claim C1: the two debounce regimes of the buffer-error handler — an
error within 1000 ms of the last (re)connect triggers a resync exactly
when more than the short 500 ms quiet window has passed since the last
error-triggered resync, and an error later than that exactly when more
than the long 2000 ms quiet window has passed — and the spec scenario:
two buffer errors 200 ms apart, 3 seconds after connecting at any time
tc, trigger exactly one resync, whether or not the scheduled reconnect
has already run when the second error arrives. -/
theorem c1_debounced_resync :
    (∀ (p : Props) (s : Debounced.State) (now : Nat),
        (now - s.lastConnectTime < 1000 →
          ((Debounced.step p s (Debounced.Event.bufferError now)).resyncCount
              = s.resyncCount + 1 ↔ 500 < now - s.lastErrorTime))
      ∧ (1000 ≤ now - s.lastConnectTime →
          ((Debounced.step p s (Debounced.Event.bufferError now)).resyncCount
              = s.resyncCount + 1 ↔ 2000 < now - s.lastErrorTime)))
  ∧ (∀ tc : Nat,
        (Debounced.run ⟨true, none⟩ (Debounced.mount tc)
          [Debounced.Event.bufferError (tc + 3000), Debounced.Event.resyncFire (tc + 3100),
           Debounced.Event.bufferError (tc + 3200)]).resyncCount = 1
      ∧ (Debounced.run ⟨true, none⟩ (Debounced.mount tc)
          [Debounced.Event.bufferError (tc + 3000),
           Debounced.Event.bufferError (tc + 3200)]).resyncCount = 1) := by
  constructor
  · intro p s now
    constructor
    · intro h
      by_cases h5 : 500 < now - s.lastErrorTime
      · have hb : Debounced.shouldReconnect s now = true := by
          rw [Debounced.shouldReconnect_near s now h]
          simp [h5]
        rw [Debounced.bufferError_true p s now hb]
        simp [h5]
      · have hb : Debounced.shouldReconnect s now = false := by
          rw [Debounced.shouldReconnect_near s now h]
          simp
          omega
        rw [Debounced.bufferError_false p s now hb]
        constructor
        · intro hx
          exfalso
          omega
        · intro hx
          exact absurd hx h5
    · intro h
      by_cases h2 : 2000 < now - s.lastErrorTime
      · have hb : Debounced.shouldReconnect s now = true := by
          rw [Debounced.shouldReconnect_far s now h]
          simp [h2]
        rw [Debounced.bufferError_true p s now hb]
        simp [h2]
      · have hb : Debounced.shouldReconnect s now = false := by
          rw [Debounced.shouldReconnect_far s now h]
          simp
          omega
        rw [Debounced.bufferError_false p s now hb]
        constructor
        · intro hx
          exfalso
          omega
        · intro hx
          exact absurd hx h2
  · intro tc
    have hm : Debounced.mount tc
        = ⟨Status.connecting, none, false, false, 0, none, none, 0, 0, tc,
           some 1, [1], some 0, [0], [], 2, []⟩ := rfl
    have hsr1 : Debounced.shouldReconnect (Debounced.mount tc) (tc + 3000) = true := by
      rw [Debounced.shouldReconnect_far]
      · rw [hm]
        simp
      · rw [hm]
        simp
    have hstep1 :
        Debounced.step ⟨true, none⟩ (Debounced.mount tc)
            (Debounced.Event.bufferError (tc + 3000))
          = ⟨Status.connecting, none, false, false, 0, none, some 100, 1, tc + 3000, tc,
             some 1, [1], some 0, [0], [], 2, []⟩ := by
      rw [Debounced.bufferError_true _ _ _ hsr1, hm]
    constructor
    · have hstep2 :
          Debounced.step ⟨true, none⟩
              (⟨Status.connecting, none, false, false, 0, none, some 100, 1, tc + 3000, tc,
                some 1, [1], some 0, [0], [], 2, []⟩ : Debounced.State)
              (Debounced.Event.resyncFire (tc + 3100))
            = ⟨Status.connecting, none, false, false, 0, none, none, 1, tc + 3000, tc + 3100,
               some 3, [3], some 2, [2], [0], 4, []⟩ := by
        rw [Debounced.resyncFire_armed ⟨true, none⟩
          (⟨Status.connecting, none, false, false, 0, none, some 100, 1, tc + 3000, tc,
            some 1, [1], some 0, [0], [], 2, []⟩ : Debounced.State) (tc + 3100) rfl]
        rfl
      have hsr3 : Debounced.shouldReconnect
          (⟨Status.connecting, none, false, false, 0, none, none, 1, tc + 3000, tc + 3100,
            some 3, [3], some 2, [2], [0], 4, []⟩ : Debounced.State) (tc + 3200) = false := by
        rw [Debounced.shouldReconnect_near]
        · simp
        · simp
      show (Debounced.run ⟨true, none⟩ (Debounced.mount tc) _).resyncCount = 1
      simp only [Debounced.run, List.foldl_cons, List.foldl_nil]
      rw [hstep1, hstep2, Debounced.bufferError_false _ _ _ hsr3]
    · have hsr2 : Debounced.shouldReconnect
          (⟨Status.connecting, none, false, false, 0, none, some 100, 1, tc + 3000, tc,
            some 1, [1], some 0, [0], [], 2, []⟩ : Debounced.State) (tc + 3200) = false := by
        rw [Debounced.shouldReconnect_far]
        · simp
        · simp
      show (Debounced.run ⟨true, none⟩ (Debounced.mount tc) _).resyncCount = 1
      simp only [Debounced.run, List.foldl_cons, List.foldl_nil]
      rw [hstep1, Debounced.bufferError_false _ _ _ hsr2]

/-- Witness for C1 at a concrete state inside the fast-retry window. -/
theorem c1_witness :
    (Debounced.step ⟨true, none⟩
      (⟨Status.connected, none, true, false, 0, none, none, 0, 0, 1000,
        some 1, [1], some 0, [0], [], 2, []⟩ : Debounced.State)
      (Debounced.Event.bufferError 1800)).resyncCount = 0 + 1 :=
  ((c1_debounced_resync.1 ⟨true, none⟩
    (⟨Status.connected, none, true, false, 0, none, none, 0, 0, 1000,
      some 1, [1], some 0, [0], [], 2, []⟩ : Debounced.State) 1800).1
    (by decide)).mpr (by decide)
